import Mathlib

/-
Shallow embedding of ksstech/counter (src/counter.c), a pulse-counting
meter with a minute/hour/day/month/year bucket-rollover state machine.

The global state of counter.c is the triple
  (psPCdata : allocated array of pulsecnt_t, LastMin : int, pcntNumCh : u8).
Here the allocated array is a `List pulsecnt_t` whose length is the
configured channel count; machine integers are `Nat` with explicit
`% 2^w` reductions where the C type can wrap (u8 / u16 / u32 fields),
and C `int` parameters are `Int`.

External collaborators not part of this repository are modelled where the
embedding needs them, each with a doc comment saying so:
  - the OUTSIDE macro (definitions.h),
  - the allocator pvRtosMalloc (hal_platform.h),
  - the calendar function xTimeCalcDaysInMonth (days-in-current-month,
    supplied as a field of the time structure, as the spec describes),
  - the status codes erSUCCESS / erFAILURE (x_errors_events.h).
-/

namespace Counter

/-- Success status from the external x_errors_events.h. Modelled from the
spec: operations return a success status distinct from the failure status;
the conventional values are 0 for success. -/
def erSUCCESS : Int := 0

/-- Failure status from the external x_errors_events.h. Modelled from the
spec: the failure condition (InvalidArgument / OutOfRange) surfaced as a
negative status, conventionally -1. -/
def erFAILURE : Int := -1

/-- Calendar constant from the external definitions.h: 60 minutes per hour
(size of the Min array). -/
def MINUTES_IN_HOUR : Nat := 60

/-- Calendar constant from the external definitions.h: 24 hours per day
(size of the Hour array). -/
def HOURS_IN_DAY : Nat := 24

/-- Calendar constant from the external definitions.h: 31 days in the
longest month (size of the fixed Day array). -/
def DAYS_IN_MONTH_MAX : Nat := 31

/-- Calendar constant from the external definitions.h: 12 months per year
(size of the Mon array). -/
def MONTHS_IN_YEAR : Nat := 12

/-- Range macro OUTSIDE(lo, x, hi) from the external definitions.h.
Modelled from the spec: the spec reads the guard OUTSIDE(0, NumCh, 255) in
xPulseCountInit as failing for a channel count "outside 0-255 (inclusive
bounds)", which fixes the macro's meaning as x < lo or x > hi (both bounds
inclusive on the accepted side). -/
def OUTSIDE (lo x hi : Int) : Bool := x < lo || x > hi

/-- The per-channel record pulsecnt_t of counter.c: one live accumulator
("TD", to-date) and one committed-history array per granularity.  Field
widths in the C struct: MinTD/Min u8, HourTD/Hour u8, DayTD/Day u16,
MonTD/Mon u16, YearTD/Year u32; each Nat here is kept below the
corresponding 2^w by the operations.  Array lengths: Min 60, Hour 24,
Day 31, Mon 12. -/
structure pulsecnt_t where
  MinTD  : Nat
  Min    : List Nat
  HourTD : Nat
  Hour   : List Nat
  DayTD  : Nat
  Day    : List Nat
  MonTD  : Nat
  Mon    : List Nat
  YearTD : Nat
  Year   : Nat
deriving DecidableEq

/-- The all-zero pulsecnt_t record, with the C struct's array sizes. -/
def pulsecntZero : pulsecnt_t :=
  { MinTD := 0, Min := List.replicate MINUTES_IN_HOUR 0
  , HourTD := 0, Hour := List.replicate HOURS_IN_DAY 0
  , DayTD := 0, Day := List.replicate DAYS_IN_MONTH_MAX 0
  , MonTD := 0, Mon := List.replicate MONTHS_IN_YEAR 0
  , YearTD := 0, Year := 0 }

/-- The struct tm fields that xPulseCountUpdate reads, plus the
days-in-current-month value.  Modelled from the spec for the last field:
xTimeCalcDaysInMonth is the external calendar collaborator and the spec
says calendarTime supplies "a days-in-current-month value (supplied by the
external calendar collaborator, accounting for leap years)", so it is an
input here. -/
structure Tm where
  tm_sec  : Int
  tm_min  : Int
  tm_hour : Int
  tm_mday : Int
  tm_mon  : Int
  daysInMonth : Int
deriving DecidableEq

/-- The loop `for (int i = psTM->tm_mday; i < DAYS_IN_MONTH_MAX; psPC->Day[i] = 0, ++i);`
of counter.c line 94: zero every Day slot with index in [tm_mday, 31).
A negative tm_mday clamps to 0 here (in C that loop start would index
before the array, undefined behavior never reached by a valid tm). -/
def zeroDayTail (mday : Int) (l : List Nat) : List Nat :=
  l.mapIdx (fun i v => if mday.toNat ≤ i ∧ i < DAYS_IN_MONTH_MAX then 0 else v)

/-- The shared fallthrough tail of the per-channel update (counter.c lines
100-113): commit DayTD into Day[mday-1] if hour == 0, then MonTD into
Mon[mon] if mday == 1, then YearTD into Year if mon == 0. -/
def cascade (psTM : Tm) (psPC : pulsecnt_t) : pulsecnt_t :=
  if psTM.tm_hour ≠ 0 then psPC
  else
    let p1 := { psPC with Day := psPC.Day.set (psTM.tm_mday - 1).toNat psPC.DayTD
                        , DayTD := 0 }
    if psTM.tm_mday ≠ 1 then p1
    else
      let p2 := { p1 with Mon := p1.Mon.set psTM.tm_mon.toNat p1.MonTD
                        , MonTD := 0 }
      if psTM.tm_mon ≠ 0 then p2
      else { p2 with Year := p2.YearTD, YearTD := 0 }

/-- One iteration of the per-channel loop body of xPulseCountUpdate
(counter.c lines 82-113): commit the minute, then either the hour-boundary
branch, the month-end branch (returning 1 for iRV), or stop.  Returns the
updated record and the iRV contribution (1 exactly when the month-end
branch fired, else 0). -/
def updChan (psTM : Tm) (psPC0 : pulsecnt_t) : pulsecnt_t × Int :=
  let p1 := { psPC0 with Min := psPC0.Min.set psTM.tm_min.toNat psPC0.MinTD
                       , MinTD := 0 }
  if psTM.tm_min = 0 then
    let p2 := { p1 with Hour := p1.Hour.set psTM.tm_hour.toNat p1.HourTD
                      , HourTD := 0 }
    (cascade psTM p2, 0)
  else if psTM.tm_min = 59 ∧ psTM.tm_hour = 23 ∧ psTM.tm_mday = psTM.daysInMonth then
    let p2 := { p1 with Day := zeroDayTail psTM.tm_mday p1.Day }
    (cascade psTM p2, 1)
  else
    (p1, 0)

/-- The channel loop of xPulseCountUpdate (counter.c lines 81-114),
threading iRV left to right exactly as the C loop assigns it: iRV becomes
1 when a channel's month-end branch fires and is never reset. -/
def updAll (psTM : Tm) : Int → List pulsecnt_t → Int × List pulsecnt_t
  | iRV, [] => (iRV, [])
  | iRV, psPC :: rest =>
      let pr := updChan psTM psPC
      let tail := updAll psTM (if pr.2 = 1 then (1 : Int) else iRV) rest
      (tail.1, pr.1 :: tail.2)

/-- xPulseCountUpdate (counter.c lines 76-116).  Input: the time structure,
and the current globals LastMin and the channel list (psPCdata of length
pcntNumCh).  Output: (return value, new LastMin, new channel list).
Return value: -1 suppressed, 0 normal, 1 month-end. -/
def xPulseCountUpdate (psTM : Tm) (LastMin : Int) (chans : List pulsecnt_t) :
    Int × Int × List pulsecnt_t :=
  if psTM.tm_sec ≠ 0 ∨ psTM.tm_min = LastMin then (-1, LastMin, chans)
  else
    let r := updAll psTM 0 chans
    (r.1, psTM.tm_min, r.2)

/-- The five ++ statements of xPulseCountIncrement (counter.c lines
122-127), with each field reduced by its C width: MinTD and HourTD are u8,
DayTD and MonTD u16, YearTD u32.  (The wrap warning print on MinTD == 0 is
I/O only and carries no state.) -/
def incChan (psPC : pulsecnt_t) : pulsecnt_t :=
  { psPC with MinTD  := (psPC.MinTD + 1) % 256
            , HourTD := (psPC.HourTD + 1) % 256
            , DayTD  := (psPC.DayTD + 1) % 65536
            , MonTD  := (psPC.MonTD + 1) % 65536
            , YearTD := (psPC.YearTD + 1) % 4294967296 }

/-- xPulseCountIncrement (counter.c lines 118-129).  Input: the channel
index, and the globals pcntNumCh and the channel list.  Output: (return
value, new channel list).  The guard is OUTSIDE(0, Idx, pcntNumCh), taken
verbatim from the source; note it accepts Idx == pcntNumCh, in which case
the C code writes one record past the allocation (here: List.set out of
range, a no-op). -/
def xPulseCountIncrement (Idx : Int) (pcntNumCh : Nat) (chans : List pulsecnt_t) :
    Int × List pulsecnt_t :=
  if OUTSIDE 0 Idx pcntNumCh then (erFAILURE, chans)
  else (erSUCCESS, chans.set Idx.toNat (incChan (chans.getD Idx.toNat pulsecntZero)))

/-- xPulseCountInit (counter.c lines 63-69).  Input: requested channel
count and the prior globals (pcntNumCh, psPCdata); psPCdata is an Option,
none standing for a null / never-assigned pointer.  The allocOk flag
models the external allocator pvRtosMalloc (hal_platform.h); modelled from
the spec: on success the allocation is the zeroed ChannelSet ("BucketRecord
fields are created zeroed", and the source's own note "At startup all
buckets are 0."), on failure it is null.  The source stores pcntNumCh and
the raw allocator result unconditionally once the range check passes and
never tests the result, so the return value is erSUCCESS in both
allocation outcomes. -/
def xPulseCountInit (NumCh : Int) (allocOk : Bool)
    (pcntNumCh0 : Nat) (psPCdata0 : Option (List pulsecnt_t)) :
    Int × Nat × Option (List pulsecnt_t) :=
  if OUTSIDE 0 NumCh 255 then (erFAILURE, pcntNumCh0, psPCdata0)
  else (erSUCCESS, NumCh.toNat,
        if allocOk then some (List.replicate NumCh.toNat pulsecntZero) else none)

/-- N successive calls of xPulseCountIncrement on the same index (the
"sequence of N increments between two ticks" of the spec). -/
def incrementN (Idx : Int) (pcntNumCh : Nat) : Nat → List pulsecnt_t → List pulsecnt_t
  | 0, chans => chans
  | n + 1, chans => incrementN Idx pcntNumCh n (xPulseCountIncrement Idx pcntNumCh chans).2

/-- On the month-end branch (min 59, hour 23, last day of the month) the
per-channel update commits the minute, zeroes the day-array tail, skips the
hour/day/month/year commits (hour is 23, not 0) and reports iRV 1. -/
lemma updChan_monthEnd (psTM : Tm) (c : pulsecnt_t)
    (h59 : psTM.tm_min = 59) (h23 : psTM.tm_hour = 23)
    (hd : psTM.tm_mday = psTM.daysInMonth) :
    updChan psTM c =
      ({ c with Min := c.Min.set 59 c.MinTD, MinTD := 0
              , Day := zeroDayTail psTM.tm_mday c.Day }, 1) := by
  simp only [updChan, cascade, h59, h23]
  norm_num
  rw [if_pos hd]
  rfl

/-- On an ordinary non-zero minute that is not the month-end case, the
per-channel update commits only the minute and reports iRV 0. -/
lemma updChan_minuteOnly (psTM : Tm) (c : pulsecnt_t)
    (h0 : psTM.tm_min ≠ 0)
    (hne : ¬(psTM.tm_min = 59 ∧ psTM.tm_hour = 23 ∧ psTM.tm_mday = psTM.daysInMonth)) :
    updChan psTM c =
      ({ c with Min := c.Min.set psTM.tm_min.toNat c.MinTD, MinTD := 0 }, 0) := by
  rw [updChan]
  rw [if_neg h0, if_neg hne]

/-- At 00:00 on the 1st of January the per-channel update runs the whole
cascade: minute, hour, day, month and year all commit. -/
lemma updChan_yearRollover (psTM : Tm) (c : pulsecnt_t)
    (hm : psTM.tm_min = 0) (hh : psTM.tm_hour = 0)
    (hd : psTM.tm_mday = 1) (hmon : psTM.tm_mon = 0) :
    updChan psTM c =
      ({ c with Min := c.Min.set 0 c.MinTD, MinTD := 0
              , Hour := c.Hour.set 0 c.HourTD, HourTD := 0
              , Day := c.Day.set 0 c.DayTD, DayTD := 0
              , Mon := c.Mon.set 0 c.MonTD, MonTD := 0
              , Year := c.YearTD, YearTD := 0 }, 0) := by
  simp only [updChan, cascade, hm, hh, hd, hmon]
  norm_num

/-- The channel loop leaves in its second component exactly the image of
the per-channel update over the channel list. -/
lemma updAll_snd (psTM : Tm) :
    ∀ (iRV : Int) (chans : List pulsecnt_t),
      (updAll psTM iRV chans).2 = chans.map (fun c => (updChan psTM c).1) := by
  intro iRV chans
  induction chans generalizing iRV with
  | nil => rfl
  | cons c rest ih => simp [updAll, ih]

/-- If no channel fires the month-end branch, the loop returns iRV
unchanged. -/
lemma updAll_fst_zero (psTM : Tm) (hz : ∀ c, (updChan psTM c).2 = 0) :
    ∀ (iRV : Int) (chans : List pulsecnt_t), (updAll psTM iRV chans).1 = iRV := by
  intro iRV chans
  induction chans generalizing iRV with
  | nil => rfl
  | cons c rest ih => simp [updAll, hz, ih]

/-- Once iRV has become 1 the loop never resets it. -/
lemma updAll_fst_keep_one (psTM : Tm) :
    ∀ chans : List pulsecnt_t, (updAll psTM 1 chans).1 = 1 := by
  intro chans
  induction chans with
  | nil => rfl
  | cons c rest ih => simp [updAll, ih]

/-- If every channel fires the month-end branch and there is at least one
channel, the loop returns iRV 1. -/
lemma updAll_fst_one (psTM : Tm) (h1 : ∀ c, (updChan psTM c).2 = 1)
    (c : pulsecnt_t) (rest : List pulsecnt_t) (iRV : Int) :
    (updAll psTM iRV (c :: rest)).1 = 1 := by
  simp only [updAll, h1, if_pos]
  exact updAll_fst_keep_one psTM rest

/-- The zeroed tail: slot 30 of the day array reads 0 after zeroDayTail 30
(whether or not the list actually reaches index 30). -/
lemma zeroDayTail_getD_thirty (l : List Nat) : (zeroDayTail 30 l).getD 30 0 = 0 := by
  by_cases h : 30 < l.length
  · rw [List.getD_eq_getElem _ _ (by simpa [zeroDayTail] using h)]
    simp [zeroDayTail, List.getElem_mapIdx, DAYS_IN_MONTH_MAX]
  · rw [List.getD_eq_default]
    simp [zeroDayTail]
    omega

/-- The preserved head: slots before index 30 of the day array are
untouched by zeroDayTail 30. -/
lemma zeroDayTail_getD_lt (l : List Nat) (j : Nat) (hj : j < 30) :
    (zeroDayTail 30 l).getD j 0 = l.getD j 0 := by
  by_cases h : j < l.length
  · rw [List.getD_eq_getElem _ _ (by simpa [zeroDayTail] using h)]
    rw [List.getD_eq_getElem _ _ h]
    simp only [zeroDayTail, List.getElem_mapIdx]
    rw [if_neg (by omega)]
  · rw [List.getD_eq_default _ _ (by simp [zeroDayTail]; omega)]
    rw [List.getD_eq_default _ _ (by omega)]

/-- Reading index i of a mapped channel list through getD, for i in
range. -/
lemma getD_map_lt (f : pulsecnt_t → pulsecnt_t) (l : List pulsecnt_t)
    (i : Nat) (hi : i < l.length) :
    (l.map f).getD i pulsecntZero = f (l.getD i pulsecntZero) := by
  rw [List.getD_eq_getElem _ _ (by simpa using hi)]
  rw [List.getD_eq_getElem _ _ hi]
  exact List.getElem_map f

/-- A suppressed tick (second not 0, or minute already processed) returns
-1 and changes nothing. -/
lemma xPulseCountUpdate_suppressed (psTM : Tm) (LastMin : Int)
    (chans : List pulsecnt_t) (h : psTM.tm_sec ≠ 0 ∨ psTM.tm_min = LastMin) :
    xPulseCountUpdate psTM LastMin chans = (-1, LastMin, chans) := by
  unfold xPulseCountUpdate
  rw [if_pos h]

/-- A processed tick (second 0 and a new minute) records the minute and
runs the channel loop. -/
lemma xPulseCountUpdate_processed (psTM : Tm) (LastMin : Int)
    (chans : List pulsecnt_t) (hsec : psTM.tm_sec = 0)
    (hmin : psTM.tm_min ≠ LastMin) :
    xPulseCountUpdate psTM LastMin chans =
      ((updAll psTM 0 chans).1, psTM.tm_min, (updAll psTM 0 chans).2) := by
  unfold xPulseCountUpdate
  rw [if_neg (by push_neg; exact ⟨hsec, hmin⟩)]

/-- The return value of a processed tick is the iRV the channel loop
produces. -/
lemma tick_processed_fst (psTM : Tm) (LastMin : Int) (chans : List pulsecnt_t)
    (hsec : psTM.tm_sec = 0) (hmin : psTM.tm_min ≠ LastMin) :
    (xPulseCountUpdate psTM LastMin chans).1 = (updAll psTM 0 chans).1 := by
  rw [xPulseCountUpdate_processed psTM LastMin chans hsec hmin]

/-- A processed tick stores the current minute as the new LastMin. -/
lemma tick_processed_lastmin (psTM : Tm) (LastMin : Int) (chans : List pulsecnt_t)
    (hsec : psTM.tm_sec = 0) (hmin : psTM.tm_min ≠ LastMin) :
    (xPulseCountUpdate psTM LastMin chans).2.1 = psTM.tm_min := by
  rw [xPulseCountUpdate_processed psTM LastMin chans hsec hmin]

/-- The channel list a processed tick leaves behind is the image of the
per-channel update. -/
lemma tick_processed_chans (psTM : Tm) (LastMin : Int) (chans : List pulsecnt_t)
    (hsec : psTM.tm_sec = 0) (hmin : psTM.tm_min ≠ LastMin) :
    (xPulseCountUpdate psTM LastMin chans).2.2
      = chans.map (fun c => (updChan psTM c).1) := by
  rw [xPulseCountUpdate_processed psTM LastMin chans hsec hmin]
  exact updAll_snd psTM 0 chans

/-- The OUTSIDE macro holds exactly off the closed interval. -/
lemma OUTSIDE_eq_true (lo x hi : Int) (h : x < lo ∨ hi < x) :
    OUTSIDE lo x hi = true := by
  simp [OUTSIDE]
  omega

/-- The OUTSIDE macro is false on the closed interval. -/
lemma OUTSIDE_eq_false (lo x hi : Int) (h1 : lo ≤ x) (h2 : x ≤ hi) :
    OUTSIDE lo x hi = false := by
  simp [OUTSIDE]
  omega

/-- An increment on a strictly in-range index passes the guard and rewrites
exactly the indexed record. -/
lemma xPulseCountIncrement_valid (Idx : Int) (numCh : Nat)
    (chans : List pulsecnt_t) (h0 : 0 ≤ Idx) (h1 : Idx.toNat < numCh) :
    xPulseCountIncrement Idx numCh chans =
      (erSUCCESS, chans.set Idx.toNat (incChan (chans.getD Idx.toNat pulsecntZero))) := by
  unfold xPulseCountIncrement
  rw [OUTSIDE_eq_false 0 Idx numCh h0 (by omega)]
  simp

/-- N increments on a fixed in-range index iterate incChan on the indexed
record and preserve the list length. -/
lemma incrementN_getD (Idx : Int) (numCh : Nat) (h0 : 0 ≤ Idx)
    (h1 : Idx.toNat < numCh) :
    ∀ (n : Nat) (chans : List pulsecnt_t), chans.length = numCh →
      (incrementN Idx numCh n chans).getD Idx.toNat pulsecntZero
          = incChan^[n] (chans.getD Idx.toNat pulsecntZero) ∧
      (incrementN Idx numCh n chans).length = numCh := by
  intro n
  induction n with
  | zero => exact fun chans hlen => ⟨rfl, hlen⟩
  | succ n ih =>
    intro chans hlen
    rw [incrementN]
    have hstep : (xPulseCountIncrement Idx numCh chans).2
        = chans.set Idx.toNat (incChan (chans.getD Idx.toNat pulsecntZero)) := by
      rw [xPulseCountIncrement_valid Idx numCh chans h0 h1]
    rw [hstep]
    have hlen2 : (chans.set Idx.toNat
        (incChan (chans.getD Idx.toNat pulsecntZero))).length = numCh := by
      simp [hlen]
    obtain ⟨hA, hB⟩ := ih _ hlen2
    refine ⟨?_, hB⟩
    rw [hA, Function.iterate_succ_apply]
    congr 1
    rw [List.getD_eq_getElem _ _ (by simpa [hlen] using h1)]
    rw [List.getElem_set_self]

/-- Iterating incChan n times on a record whose live accumulators are all
zero leaves each accumulator at n reduced by its C width. -/
lemma iterate_incChan_accums (c : pulsecnt_t) (h1 : c.MinTD = 0)
    (h2 : c.HourTD = 0) (h3 : c.DayTD = 0) (h4 : c.MonTD = 0)
    (h5 : c.YearTD = 0) :
    ∀ n : Nat, (incChan^[n] c).MinTD = n % 256 ∧
      (incChan^[n] c).HourTD = n % 256 ∧
      (incChan^[n] c).DayTD = n % 65536 ∧
      (incChan^[n] c).MonTD = n % 65536 ∧
      (incChan^[n] c).YearTD = n % 4294967296 := by
  intro n
  induction n with
  | zero => simpa using ⟨h1, h2, h3, h4, h5⟩
  | succ n ih =>
    obtain ⟨i1, i2, i3, i4, i5⟩ := ih
    rw [Function.iterate_succ_apply']
    have e1 : ∀ x : pulsecnt_t, (incChan x).MinTD = (x.MinTD + 1) % 256 := fun _ => rfl
    have e2 : ∀ x : pulsecnt_t, (incChan x).HourTD = (x.HourTD + 1) % 256 := fun _ => rfl
    have e3 : ∀ x : pulsecnt_t, (incChan x).DayTD = (x.DayTD + 1) % 65536 := fun _ => rfl
    have e4 : ∀ x : pulsecnt_t, (incChan x).MonTD = (x.MonTD + 1) % 65536 := fun _ => rfl
    have e5 : ∀ x : pulsecnt_t, (incChan x).YearTD = (x.YearTD + 1) % 4294967296 := fun _ => rfl
    refine ⟨?_, ?_, ?_, ?_, ?_⟩
    · rw [e1, i1]; omega
    · rw [e2, i2]; omega
    · rw [e3, i3]; omega
    · rw [e4, i4]; omega
    · rw [e5, i5]; omega

/-- A nontrivial concrete channel record used by the witnesses: distinct
committed day values 1..31 and nonzero live accumulators. -/
def sampleChan : pulsecnt_t :=
  { MinTD := 3, Min := List.replicate MINUTES_IN_HOUR 1
  , HourTD := 4, Hour := List.replicate HOURS_IN_DAY 2
  , DayTD := 5, Day := (List.range DAYS_IN_MONTH_MAX).map (fun i => i + 1)
  , MonTD := 6, Mon := List.replicate MONTHS_IN_YEAR 7
  , YearTD := 8, Year := 9 }

/-- C2: for every state and every calendar time, a second call of
xPulseCountUpdate with the same arguments returns -1 (Suppressed) and
leaves the channel records and the remembered LastMin exactly as the first
call left them. -/
theorem tick_twice_same_minute_idempotent (psTM : Tm) (LastMin : Int)
    (chans : List pulsecnt_t) :
    xPulseCountUpdate psTM (xPulseCountUpdate psTM LastMin chans).2.1
        (xPulseCountUpdate psTM LastMin chans).2.2
      = (-1, (xPulseCountUpdate psTM LastMin chans).2.1,
             (xPulseCountUpdate psTM LastMin chans).2.2) := by
  by_cases h : psTM.tm_sec ≠ 0 ∨ psTM.tm_min = LastMin
  · rw [xPulseCountUpdate_suppressed psTM LastMin chans h]
    exact xPulseCountUpdate_suppressed psTM LastMin chans h
  · push_neg at h
    rw [xPulseCountUpdate_processed psTM LastMin chans h.1 h.2]
    exact xPulseCountUpdate_suppressed psTM psTM.tm_min _ (Or.inr rfl)

/-- C9: suppression keys on the minute-of-hour value only, not on elapsed
time.  A tick at 10:30:00 followed by a tick at 11:30:00 (a distinct real
minute boundary one hour later with the same minute-of-hour value 30)
leaves the second tick returning -1 (Suppressed) with no state change,
whatever the channel data and prior LastMin were. -/
theorem tick_same_minute_value_hour_apart_suppressed (LastMin : Int)
    (chans : List pulsecnt_t) :
    xPulseCountUpdate (⟨0, 30, 11, 15, 5, 30⟩ : Tm)
        (xPulseCountUpdate (⟨0, 30, 10, 15, 5, 30⟩ : Tm) LastMin chans).2.1
        (xPulseCountUpdate (⟨0, 30, 10, 15, 5, 30⟩ : Tm) LastMin chans).2.2
      = (-1, (xPulseCountUpdate (⟨0, 30, 10, 15, 5, 30⟩ : Tm) LastMin chans).2.1,
             (xPulseCountUpdate (⟨0, 30, 10, 15, 5, 30⟩ : Tm) LastMin chans).2.2) := by
  by_cases h : (30 : Int) = LastMin
  · rw [xPulseCountUpdate_suppressed _ LastMin chans (Or.inr h)]
    exact xPulseCountUpdate_suppressed _ LastMin chans (Or.inr h)
  · rw [xPulseCountUpdate_processed _ LastMin chans rfl h]
    exact xPulseCountUpdate_suppressed _ _ _ (Or.inr rfl)

/-- C10: with zero channels configured, a tick at an end-of-month boundary
returns 0 (Normal), not 1 (MonthEnd): iRV is only ever set inside the
per-channel loop. -/
theorem tick_month_end_zero_channels_normal (psTM : Tm) (LastMin : Int)
    (hsec : psTM.tm_sec = 0) (hmin : psTM.tm_min = 59)
    (hhour : psTM.tm_hour = 23) (hd : psTM.tm_mday = psTM.daysInMonth)
    (hlast : psTM.tm_min ≠ LastMin) :
    (xPulseCountUpdate psTM LastMin []).1 = 0 := by
  rw [tick_processed_fst psTM LastMin [] hsec hlast]
  rfl

/-- Witness for C10 at a concrete end-of-month time. -/
theorem tick_month_end_zero_channels_normal_witness :
    (xPulseCountUpdate (⟨0, 59, 23, 30, 5, 30⟩ : Tm) (-1) []).1 = 0 :=
  tick_month_end_zero_channels_normal (⟨0, 59, 23, 30, 5, 30⟩ : Tm) (-1)
    rfl rfl rfl rfl (by decide)

/-- C1: at the end of a 30-day month (second 0, minute 59, hour 23, day 30
equal to the days in the current month, minute not the last processed one)
a tick over a configured, nonempty channel set returns 1 (MonthEnd), slot
30 of every channel's day array reads zero afterwards, and slots 0..29
keep the values they held before the tick. -/
theorem tick_month_end_thirty_day_month (psTM : Tm) (LastMin : Int)
    (chans : List pulsecnt_t)
    (hsec : psTM.tm_sec = 0) (hmin : psTM.tm_min = 59)
    (hhour : psTM.tm_hour = 23) (hmday : psTM.tm_mday = 30)
    (hdim : psTM.daysInMonth = 30) (hlast : psTM.tm_min ≠ LastMin)
    (hch : chans ≠ []) :
    (xPulseCountUpdate psTM LastMin chans).1 = 1 ∧
    (xPulseCountUpdate psTM LastMin chans).2.2.length = chans.length ∧
    ∀ i, i < chans.length →
      ((xPulseCountUpdate psTM LastMin chans).2.2.getD i pulsecntZero).Day.getD 30 0 = 0 ∧
      ∀ j, j < 30 →
        ((xPulseCountUpdate psTM LastMin chans).2.2.getD i pulsecntZero).Day.getD j 0
          = (chans.getD i pulsecntZero).Day.getD j 0 := by
  have hd : psTM.tm_mday = psTM.daysInMonth := by rw [hmday, hdim]
  have hupd : ∀ c, updChan psTM c =
      ({ c with Min := c.Min.set 59 c.MinTD, MinTD := 0
              , Day := zeroDayTail psTM.tm_mday c.Day }, 1) :=
    fun c => updChan_monthEnd psTM c hmin hhour hd
  refine ⟨?_, ?_, ?_⟩
  · rw [tick_processed_fst psTM LastMin chans hsec hlast]
    obtain ⟨c, rest, rfl⟩ : ∃ c rest, chans = c :: rest := by
      cases chans with
      | nil => exact absurd rfl hch
      | cons a l => exact ⟨a, l, rfl⟩
    exact updAll_fst_one psTM (fun c => by rw [hupd c]) c rest 0
  · rw [tick_processed_chans psTM LastMin chans hsec hlast]
    simp
  · intro i hi
    rw [tick_processed_chans psTM LastMin chans hsec hlast]
    simp only [getD_map_lt _ _ i hi]
    rw [hupd (chans.getD i pulsecntZero)]
    constructor
    · simp only [hmday]
      exact zeroDayTail_getD_thirty _
    · intro j hj
      simp only [hmday]
      exact zeroDayTail_getD_lt _ j hj

/-- Witness for C1: a 30-day month end over one channel whose day array
holds 1..31; the tick returns 1, slot 30 reads 0 and slot 5 keeps its
committed value. -/
theorem tick_month_end_thirty_day_month_witness :
    (xPulseCountUpdate (⟨0, 59, 23, 30, 5, 30⟩ : Tm) (-1) [sampleChan]).1 = 1 ∧
    ((xPulseCountUpdate (⟨0, 59, 23, 30, 5, 30⟩ : Tm) (-1)
        [sampleChan]).2.2.getD 0 pulsecntZero).Day.getD 30 0 = 0 ∧
    ((xPulseCountUpdate (⟨0, 59, 23, 30, 5, 30⟩ : Tm) (-1)
        [sampleChan]).2.2.getD 0 pulsecntZero).Day.getD 5 0
      = (([sampleChan] : List pulsecnt_t).getD 0 pulsecntZero).Day.getD 5 0 :=
  ⟨(tick_month_end_thirty_day_month (⟨0, 59, 23, 30, 5, 30⟩ : Tm) (-1) [sampleChan]
      rfl rfl rfl rfl rfl (by decide) (List.cons_ne_nil _ _)).1,
   ((tick_month_end_thirty_day_month (⟨0, 59, 23, 30, 5, 30⟩ : Tm) (-1) [sampleChan]
      rfl rfl rfl rfl rfl (by decide) (List.cons_ne_nil _ _)).2.2 0 (by decide)).1,
   ((tick_month_end_thirty_day_month (⟨0, 59, 23, 30, 5, 30⟩ : Tm) (-1) [sampleChan]
      rfl rfl rfl rfl rfl (by decide) (List.cons_ne_nil _ _)).2.2 0 (by decide)).2
      5 (by decide)⟩

/-- C3: a processed tick at a minute that is neither 0 nor the month-end
special case changes only the minute data of each channel: the hour, day,
month and year history arrays and the hour/day/month/year live
accumulators all keep their previous values. -/
theorem tick_ordinary_minute_frame (psTM : Tm) (LastMin : Int)
    (chans : List pulsecnt_t)
    (hsec : psTM.tm_sec = 0) (hlast : psTM.tm_min ≠ LastMin)
    (h0 : psTM.tm_min ≠ 0)
    (hne : ¬(psTM.tm_min = 59 ∧ psTM.tm_hour = 23 ∧ psTM.tm_mday = psTM.daysInMonth)) :
    (xPulseCountUpdate psTM LastMin chans).2.2.length = chans.length ∧
    ∀ i, i < chans.length →
      ((xPulseCountUpdate psTM LastMin chans).2.2.getD i pulsecntZero).Hour
          = (chans.getD i pulsecntZero).Hour ∧
      ((xPulseCountUpdate psTM LastMin chans).2.2.getD i pulsecntZero).HourTD
          = (chans.getD i pulsecntZero).HourTD ∧
      ((xPulseCountUpdate psTM LastMin chans).2.2.getD i pulsecntZero).Day
          = (chans.getD i pulsecntZero).Day ∧
      ((xPulseCountUpdate psTM LastMin chans).2.2.getD i pulsecntZero).DayTD
          = (chans.getD i pulsecntZero).DayTD ∧
      ((xPulseCountUpdate psTM LastMin chans).2.2.getD i pulsecntZero).Mon
          = (chans.getD i pulsecntZero).Mon ∧
      ((xPulseCountUpdate psTM LastMin chans).2.2.getD i pulsecntZero).MonTD
          = (chans.getD i pulsecntZero).MonTD ∧
      ((xPulseCountUpdate psTM LastMin chans).2.2.getD i pulsecntZero).Year
          = (chans.getD i pulsecntZero).Year ∧
      ((xPulseCountUpdate psTM LastMin chans).2.2.getD i pulsecntZero).YearTD
          = (chans.getD i pulsecntZero).YearTD := by
  rw [tick_processed_chans psTM LastMin chans hsec hlast]
  constructor
  · simp
  · intro i hi
    simp only [getD_map_lt _ _ i hi]
    rw [updChan_minuteOnly psTM (chans.getD i pulsecntZero) h0 hne]
    exact ⟨rfl, rfl, rfl, rfl, rfl, rfl, rfl, rfl⟩

/-- Witness for C3 at 10:30:00 on day 15 of a 30-day month over one
channel. -/
theorem tick_ordinary_minute_frame_witness :
    ((xPulseCountUpdate (⟨0, 30, 10, 15, 5, 30⟩ : Tm) (-1)
        [sampleChan]).2.2.getD 0 pulsecntZero).Hour
        = (([sampleChan] : List pulsecnt_t).getD 0 pulsecntZero).Hour ∧
    ((xPulseCountUpdate (⟨0, 30, 10, 15, 5, 30⟩ : Tm) (-1)
        [sampleChan]).2.2.getD 0 pulsecntZero).HourTD
        = (([sampleChan] : List pulsecnt_t).getD 0 pulsecntZero).HourTD ∧
    ((xPulseCountUpdate (⟨0, 30, 10, 15, 5, 30⟩ : Tm) (-1)
        [sampleChan]).2.2.getD 0 pulsecntZero).Day
        = (([sampleChan] : List pulsecnt_t).getD 0 pulsecntZero).Day ∧
    ((xPulseCountUpdate (⟨0, 30, 10, 15, 5, 30⟩ : Tm) (-1)
        [sampleChan]).2.2.getD 0 pulsecntZero).DayTD
        = (([sampleChan] : List pulsecnt_t).getD 0 pulsecntZero).DayTD ∧
    ((xPulseCountUpdate (⟨0, 30, 10, 15, 5, 30⟩ : Tm) (-1)
        [sampleChan]).2.2.getD 0 pulsecntZero).Mon
        = (([sampleChan] : List pulsecnt_t).getD 0 pulsecntZero).Mon ∧
    ((xPulseCountUpdate (⟨0, 30, 10, 15, 5, 30⟩ : Tm) (-1)
        [sampleChan]).2.2.getD 0 pulsecntZero).MonTD
        = (([sampleChan] : List pulsecnt_t).getD 0 pulsecntZero).MonTD ∧
    ((xPulseCountUpdate (⟨0, 30, 10, 15, 5, 30⟩ : Tm) (-1)
        [sampleChan]).2.2.getD 0 pulsecntZero).Year
        = (([sampleChan] : List pulsecnt_t).getD 0 pulsecntZero).Year ∧
    ((xPulseCountUpdate (⟨0, 30, 10, 15, 5, 30⟩ : Tm) (-1)
        [sampleChan]).2.2.getD 0 pulsecntZero).YearTD
        = (([sampleChan] : List pulsecnt_t).getD 0 pulsecntZero).YearTD :=
  (tick_ordinary_minute_frame (⟨0, 30, 10, 15, 5, 30⟩ : Tm) (-1) [sampleChan]
      rfl (by decide) (by decide) (by decide)).2 0 (by decide)

/-- C6: a processed tick at 00:00 on the 1st of January (month 0, day 1,
hour 0, minute 0) commits YearTD into Year and resets YearTD, and in the
same tick also commits MinTD into Min[0], HourTD into Hour[0], DayTD into
Day[0] and MonTD into Mon[0], resetting each accumulator. -/
theorem tick_year_rollover (psTM : Tm) (LastMin : Int)
    (chans : List pulsecnt_t)
    (hsec : psTM.tm_sec = 0) (hlast : psTM.tm_min ≠ LastMin)
    (hm : psTM.tm_min = 0) (hh : psTM.tm_hour = 0)
    (hd : psTM.tm_mday = 1) (hmon : psTM.tm_mon = 0) :
    (xPulseCountUpdate psTM LastMin chans).2.2
      = chans.map (fun c =>
          { c with Min := c.Min.set 0 c.MinTD, MinTD := 0
                 , Hour := c.Hour.set 0 c.HourTD, HourTD := 0
                 , Day := c.Day.set 0 c.DayTD, DayTD := 0
                 , Mon := c.Mon.set 0 c.MonTD, MonTD := 0
                 , Year := c.YearTD, YearTD := 0 }) := by
  rw [tick_processed_chans psTM LastMin chans hsec hlast]
  have hfun : (fun c => (updChan psTM c).1)
      = (fun c : pulsecnt_t =>
          { c with Min := c.Min.set 0 c.MinTD, MinTD := 0
                 , Hour := c.Hour.set 0 c.HourTD, HourTD := 0
                 , Day := c.Day.set 0 c.DayTD, DayTD := 0
                 , Mon := c.Mon.set 0 c.MonTD, MonTD := 0
                 , Year := c.YearTD, YearTD := 0 }) := by
    funext c
    rw [updChan_yearRollover psTM c hm hh hd hmon]
  rw [hfun]

/-- Witness for C6 at 00:00:00 on the 1st of January over one channel. -/
theorem tick_year_rollover_witness :
    (xPulseCountUpdate (⟨0, 0, 0, 1, 0, 31⟩ : Tm) (-1) [sampleChan]).2.2
      = [{ sampleChan with
             Min := sampleChan.Min.set 0 sampleChan.MinTD, MinTD := 0
           , Hour := sampleChan.Hour.set 0 sampleChan.HourTD, HourTD := 0
           , Day := sampleChan.Day.set 0 sampleChan.DayTD, DayTD := 0
           , Mon := sampleChan.Mon.set 0 sampleChan.MonTD, MonTD := 0
           , Year := sampleChan.YearTD, YearTD := 0 }] :=
  tick_year_rollover (⟨0, 0, 0, 1, 0, 31⟩ : Tm) (-1) [sampleChan]
    rfl (by decide) rfl rfl rfl rfl

/-- C4 (code-bug record): the guard OUTSIDE(0, Idx, pcntNumCh) accepts the
index equal to the channel count, one past the last valid index: for every
configured count the call returns erSUCCESS there instead of the
OutOfRange failure the specification requires, and in C it increments the
record one past the end of the allocation. -/
theorem increment_index_equal_to_count_accepted (numCh : Nat)
    (chans : List pulsecnt_t) :
    (xPulseCountIncrement (numCh : Int) numCh chans).1 = erSUCCESS := by
  unfold xPulseCountIncrement
  rw [OUTSIDE_eq_false 0 (numCh : Int) (numCh : Int) (by omega) (le_refl _)]
  rfl

/-- C5 (amended): starting from a channel whose five live accumulators are
zero, after N increments on that valid channel MinTD and HourTD both equal
N mod 256 (both are u8), DayTD and MonTD equal N mod 65536 (u16), and
YearTD equals N mod 2^32 (u32); they equal N exactly only while N is below
the respective width. -/
theorem increments_accumulate_mod_width (n : Nat) (numCh : Nat) (Idx : Int)
    (chans : List pulsecnt_t) (h0 : 0 ≤ Idx) (h1 : Idx.toNat < numCh)
    (hlen : chans.length = numCh)
    (hm : (chans.getD Idx.toNat pulsecntZero).MinTD = 0)
    (hh : (chans.getD Idx.toNat pulsecntZero).HourTD = 0)
    (hd : (chans.getD Idx.toNat pulsecntZero).DayTD = 0)
    (hmo : (chans.getD Idx.toNat pulsecntZero).MonTD = 0)
    (hy : (chans.getD Idx.toNat pulsecntZero).YearTD = 0) :
    ((incrementN Idx numCh n chans).getD Idx.toNat pulsecntZero).MinTD = n % 256 ∧
    ((incrementN Idx numCh n chans).getD Idx.toNat pulsecntZero).HourTD = n % 256 ∧
    ((incrementN Idx numCh n chans).getD Idx.toNat pulsecntZero).DayTD = n % 65536 ∧
    ((incrementN Idx numCh n chans).getD Idx.toNat pulsecntZero).MonTD = n % 65536 ∧
    ((incrementN Idx numCh n chans).getD Idx.toNat pulsecntZero).YearTD
        = n % 4294967296 := by
  have h := (incrementN_getD Idx numCh h0 h1 n chans hlen).1
  rw [h]
  exact iterate_incChan_accums (chans.getD Idx.toNat pulsecntZero) hm hh hd hmo hy n

/-- Witness for amended C5: three increments on the single fresh channel
leave every live accumulator at 3 reduced by its width. -/
theorem increments_accumulate_mod_width_witness :
    ((incrementN 0 1 3 [pulsecntZero]).getD 0 pulsecntZero).MinTD = 3 % 256 ∧
    ((incrementN 0 1 3 [pulsecntZero]).getD 0 pulsecntZero).HourTD = 3 % 256 ∧
    ((incrementN 0 1 3 [pulsecntZero]).getD 0 pulsecntZero).DayTD = 3 % 65536 ∧
    ((incrementN 0 1 3 [pulsecntZero]).getD 0 pulsecntZero).MonTD = 3 % 65536 ∧
    ((incrementN 0 1 3 [pulsecntZero]).getD 0 pulsecntZero).YearTD = 3 % 4294967296 :=
  increments_accumulate_mod_width 3 1 0 [pulsecntZero]
    (by decide) (by decide) rfl rfl rfl rfl rfl rfl

/-- Counterexample to C5 as stated: HourTD is a u8 like MinTD, so after
256 increments on a fresh channel it has wrapped to 0 and does not equal
256. -/
theorem increments_256_hour_accumulator_wraps :
    ((incrementN 0 1 256 [pulsecntZero]).getD 0 pulsecntZero).HourTD ≠ 256 := by
  have h := (incrementN_getD 0 1 (by decide) (by decide) 256 [pulsecntZero] rfl).1
  rw [Int.toNat_zero] at h
  rw [h]
  have h2 := (iterate_incChan_accums (([pulsecntZero] : List pulsecnt_t).getD 0
      pulsecntZero) rfl rfl rfl rfl rfl 256).2.1
  rw [h2]
  decide

/-- C7 (amended): initialization fails (erFAILURE) exactly when the
requested channel count is outside 0..255; in that case neither stored
global changes.  When the range check passes the function stores the
channel count and the raw allocator result and returns erSUCCESS whether
or not the allocation was satisfied: an allocation failure is not
surfaced. -/
theorem init_failure_iff_range (NumCh : Int) (allocOk : Bool) (n0 : Nat)
    (d0 : Option (List pulsecnt_t)) :
    ((xPulseCountInit NumCh allocOk n0 d0).1 = erFAILURE ↔ NumCh < 0 ∨ 255 < NumCh) ∧
    (NumCh < 0 ∨ 255 < NumCh →
      xPulseCountInit NumCh allocOk n0 d0 = (erFAILURE, n0, d0)) ∧
    (0 ≤ NumCh → NumCh ≤ 255 →
      (xPulseCountInit NumCh allocOk n0 d0).1 = erSUCCESS ∧
      (xPulseCountInit NumCh allocOk n0 d0).2.1 = NumCh.toNat) := by
  by_cases h : NumCh < 0 ∨ 255 < NumCh
  · have hred : xPulseCountInit NumCh allocOk n0 d0 = (erFAILURE, n0, d0) := by
      unfold xPulseCountInit
      rw [OUTSIDE_eq_true 0 NumCh 255 h]
      rfl
    refine ⟨?_, fun _ => hred, fun hc1 hc2 => absurd h (by omega)⟩
    rw [hred]
    exact iff_of_true rfl h
  · push_neg at h
    have hred : xPulseCountInit NumCh allocOk n0 d0
        = (erSUCCESS, NumCh.toNat,
           if allocOk then some (List.replicate NumCh.toNat pulsecntZero)
           else none) := by
      unfold xPulseCountInit
      rw [OUTSIDE_eq_false 0 NumCh 255 h.1 h.2]
      rfl
    refine ⟨?_, fun hc => absurd hc (by omega), fun hc1 hc2 => ⟨by rw [hred], by rw [hred]⟩⟩
    rw [hred]
    have hne : (erSUCCESS : Int) ≠ erFAILURE := by decide
    exact iff_of_false hne (by omega)

/-- Witness for amended C7: a channel count of 300 is rejected with the
prior globals untouched. -/
theorem init_failure_iff_range_witness :
    xPulseCountInit 300 true 0 none = (erFAILURE, 0, none) :=
  (init_failure_iff_range 300 true 0 none).2.1 (by decide)

/-- Counterexample to C7 as stated: with an in-range channel count of 1
and an unsatisfiable allocation, initialization still returns erSUCCESS
(not the InvalidArgument failure the claim requires) and has already
overwritten the stored channel count (0 before, 1 after), so partial state
does exist. -/
theorem init_alloc_failure_reports_success :
    (xPulseCountInit 1 false 0 none).1 = erSUCCESS ∧
    (xPulseCountInit 1 false 0 none).1 ≠ erFAILURE ∧
    (xPulseCountInit 1 false 0 none).2.1 = 1 := by
  decide

/-- C8: a successful initialization (in-range channel count, allocation
satisfied) yields a channel set of exactly the requested size in which
every field of every record is zero: all five live accumulators, the Year
slot, and every entry of the Min, Hour, Day and Mon history arrays. -/
theorem init_success_all_fields_zero (NumCh : Int) (n0 : Nat)
    (d0 : Option (List pulsecnt_t)) (h0 : 0 ≤ NumCh) (h255 : NumCh ≤ 255) :
    ∃ l, (xPulseCountInit NumCh true n0 d0).2.2 = some l ∧
      (xPulseCountInit NumCh true n0 d0).1 = erSUCCESS ∧
      l.length = NumCh.toNat ∧
      ∀ c ∈ l, c.MinTD = 0 ∧ c.HourTD = 0 ∧ c.DayTD = 0 ∧ c.MonTD = 0 ∧
        c.YearTD = 0 ∧ c.Year = 0 ∧
        (∀ x ∈ c.Min, x = 0) ∧ (∀ x ∈ c.Hour, x = 0) ∧
        (∀ x ∈ c.Day, x = 0) ∧ (∀ x ∈ c.Mon, x = 0) := by
  have hred : xPulseCountInit NumCh true n0 d0
      = (erSUCCESS, NumCh.toNat, some (List.replicate NumCh.toNat pulsecntZero)) := by
    unfold xPulseCountInit
    rw [OUTSIDE_eq_false 0 NumCh 255 h0 h255]
    rfl
  refine ⟨List.replicate NumCh.toNat pulsecntZero, by rw [hred], by rw [hred],
    by simp, ?_⟩
  intro c hc
  rw [List.eq_of_mem_replicate hc]
  refine ⟨rfl, rfl, rfl, rfl, rfl, rfl, ?_, ?_, ?_, ?_⟩
  · intro x hx
    exact List.eq_of_mem_replicate hx
  · intro x hx
    exact List.eq_of_mem_replicate hx
  · intro x hx
    exact List.eq_of_mem_replicate hx
  · intro x hx
    exact List.eq_of_mem_replicate hx

/-- Witness for C8: initializing two channels yields two all-zero
records. -/
theorem init_success_all_fields_zero_witness :
    ∃ l, (xPulseCountInit 2 true 0 none).2.2 = some l ∧
      (xPulseCountInit 2 true 0 none).1 = erSUCCESS ∧
      l.length = (2 : Int).toNat ∧
      ∀ c ∈ l, c.MinTD = 0 ∧ c.HourTD = 0 ∧ c.DayTD = 0 ∧ c.MonTD = 0 ∧
        c.YearTD = 0 ∧ c.Year = 0 ∧
        (∀ x ∈ c.Min, x = 0) ∧ (∀ x ∈ c.Hour, x = 0) ∧
        (∀ x ∈ c.Day, x = 0) ∧ (∀ x ∈ c.Mon, x = 0) :=
  init_success_all_fields_zero 2 0 none (by decide) (by decide)

end Counter
